import Mathlib

/-!
Verification of `src/icons/generate_icons.py`, a one-shot placeholder icon
generator.  The drawing surface is embedded shallowly: rendering a call to
`create_icon` produces an `Icon` record listing the drawing primitives in the
order they were issued, and the driver is a state transformer over written
files and accumulated stdout.  Python `//` (floor division on ints) is
`Int.fdiv`; Python `print` appends its argument followed by a newline.
-/

namespace IconGen

/-- An RGB colour triple, as Pillow receives it. -/
structure RGB where
  r : Nat
  g : Nat
  b : Nat
deriving DecidableEq, Repr

/-- White, used for all strokes and for text. -/
def white : RGB := ⟨255, 255, 255⟩

/-- The solid background colour (0, 123, 255). -/
def backgroundBlue : RGB := ⟨0, 123, 255⟩

/-- A font as obtained from the fallback chain: either a scalable truetype
font identified by its path and point size, or the generic bitmap font
returned by `ImageFont.load_default()`. -/
inductive Font where
  | truetype (path : String) (size : Int)
  | defaultFont
deriving DecidableEq, Repr

/-- Which tiers of the font fallback chain succeed.  `systemOk` is whether
`ImageFont.truetype("/System/Library/Fonts/Helvetica.ttc", ...)` succeeds,
`arialOk` whether `ImageFont.truetype("arial.ttf", ...)` succeeds.
`ImageFont.load_default()` always succeeds. -/
structure FontEnv where
  systemOk : Bool
  arialOk : Bool
deriving DecidableEq, Repr

/-- The font acquisition of `create_icon` lines 33-41: try the system font,
on any exception try "arial.ttf", on any exception fall back to the generic
bitmap font.  Total: every tier may fail except the last. -/
def acquireFont (env : FontEnv) (fontSize : Int) : Font :=
  if env.systemOk then Font.truetype "/System/Library/Fonts/Helvetica.ttc" fontSize
  else if env.arialOk then Font.truetype "arial.ttf" fontSize
  else Font.defaultFont

/-- A text bounding box as returned by `draw.textbbox((0,0), text, font)`:
left, top, right, bottom. -/
structure BBox where
  x0 : Int
  y0 : Int
  x1 : Int
  y1 : Int
deriving DecidableEq, Repr

/-- The external text-measurement capability: `draw.textbbox` anchored at
(0,0) is a function of the font and the text. -/
abbrev Measure := Font → String → BBox

/-- A drawing primitive issued against the canvas, in source order:
`draw.ellipse`, `draw.text`, `draw.arc`. -/
inductive Prim where
  | ellipse (x0 y0 x1 y1 : Int) (outline : RGB) (width : Int)
  | text (x y : Int) (s : String) (fill : RGB) (font : Font)
  | arc (x0 y0 x1 y1 : Int) (startAngle endAngle : Int) (fill : RGB) (width : Int)
deriving DecidableEq, Repr

/-- The rendered canvas: `Image.new(mode, (width, height), color)` plus the
list of primitives drawn onto it, in order. -/
structure Icon where
  mode : String
  width : Int
  height : Int
  background : RGB
  prims : List Prim
deriving DecidableEq, Repr

/-- Shallow embedding of `create_icon(size, filename)` lines 13-62 (the
drawing part; the save and print are modelled in the driver).  Mirrors the
source: background canvas, outer ellipse, then the `size >= 48` text branch
and the `size < 48` arc branch. -/
def create_icon (measure : Measure) (env : FontEnv) (size : Int) : Icon :=
  let margin := Int.fdiv size 4
  let center := Int.fdiv size 2
  let _radius := center - margin
  let ellipsePrim : Prim :=
    Prim.ellipse margin margin (size - margin) (size - margin) white
      (max 2 (Int.fdiv size 32))
  let textPrims : List Prim :=
    if size ≥ 48 then
      let font_size := Int.fdiv size 3
      let font := acquireFont env font_size
      let text := if size ≥ 64 then "SEO" else "S"
      let bbox := measure font text
      let text_width := bbox.x1 - bbox.x0
      let text_height := bbox.y1 - bbox.y0
      let text_x := Int.fdiv (size - text_width) 2
      let text_y := Int.fdiv (size - text_height) 2
      [Prim.text text_x text_y text white font]
    else []
  let arcPrims : List Prim :=
    if size < 48 then
      let line_length := Int.fdiv size 3
      let line_width := max 1 (Int.fdiv size 16)
      [Prim.arc (center - line_length) (center - line_length)
        (center + line_length) (center + line_length) 45 315 white line_width]
    else []
  { mode := "RGB", width := size, height := size, background := backgroundBlue,
    prims := [ellipsePrim] ++ textPrims ++ arcPrims }

/-- Whether a primitive is a text primitive. -/
def isTextPrim : Prim → Bool
  | Prim.text .. => true
  | _ => false

/-- Whether a primitive is an arc primitive. -/
def isArcPrim : Prim → Bool
  | Prim.arc .. => true
  | _ => false

/-- The canvas contains at least one text primitive. -/
def hasTextPrim (icon : Icon) : Bool := icon.prims.any isTextPrim

/-- The canvas contains at least one arc primitive. -/
def hasArcPrim (icon : Icon) : Bool := icon.prims.any isArcPrim

/-- The strings of all text primitives drawn on the canvas, in order. -/
def drawnTexts (icon : Icon) : List String :=
  icon.prims.filterMap fun p => match p with
    | Prim.text _ _ s _ _ => some s
    | _ => none

/-- The (string, font) pairs of all text primitives drawn on the canvas. -/
def drawnTextFonts (icon : Icon) : List (String × Font) :=
  icon.prims.filterMap fun p => match p with
    | Prim.text _ _ s _ f => some (s, f)
    | _ => none

/-- The stroke widths of all ellipse primitives drawn on the canvas. -/
def ellipseWidths (icon : Icon) : List Int :=
  icon.prims.filterMap fun p => match p with
    | Prim.ellipse _ _ _ _ _ w => some w
    | _ => none

/-- The arc primitives drawn on the canvas, in order. -/
def arcPrimsOf (icon : Icon) : List Prim :=
  icon.prims.filter isArcPrim

/-- Encoding of an integer as bytes-like naturals: sign flag then magnitude. -/
def encInt (n : Int) : List Nat :=
  if n < 0 then [1, n.natAbs] else [0, n.natAbs]

/-- Encoding of a string as its length followed by its character codes. -/
def encStr (s : String) : List Nat :=
  s.length :: s.toList.map Char.toNat

/-- Encoding of a colour. -/
def encRGB (c : RGB) : List Nat := [c.r, c.g, c.b]

/-- Encoding of a font. -/
def encFont : Font → List Nat
  | Font.truetype p s => 0 :: encStr p ++ encInt s
  | Font.defaultFont => [1]

/-- Encoding of one drawing primitive. -/
def encPrim : Prim → List Nat
  | Prim.ellipse x0 y0 x1 y1 c w =>
      0 :: encInt x0 ++ encInt y0 ++ encInt x1 ++ encInt y1 ++ encRGB c ++ encInt w
  | Prim.text x y s c f =>
      1 :: encInt x ++ encInt y ++ encStr s ++ encRGB c ++ encFont f
  | Prim.arc x0 y0 x1 y1 a b c w =>
      2 :: encInt x0 ++ encInt y0 ++ encInt x1 ++ encInt y1 ++ encInt a ++ encInt b
        ++ encRGB c ++ encInt w

/-- Modelled from the spec: PNG encoding (`img.save(filename, 'PNG')` defers
to the external imaging library, which is not part of src/).  Per the spec it
is deterministic — a pure function of the canvas contents, embedding no
timestamps and drawing no randomness — so it is modelled as a concrete
serialisation of the canvas record. -/
def encodePNG (icon : Icon) : List Nat :=
  encStr icon.mode ++ encInt icon.width ++ encInt icon.height
    ++ encRGB icon.background
    ++ icon.prims.length :: (icon.prims.map encPrim).flatten

/-- Python `print(s)`: the text appended to stdout, i.e. `s` plus a newline. -/
def pyLine (s : String) : String := s ++ "\n"

/-- Whether writing a given path succeeds; a file-write failure at a path
raises (is modelled as) an error. -/
structure WriteEnv where
  writeOk : String → Bool

/-- Observable state of one run: the files written so far (path and bytes, in
write order) and the stdout text accumulated so far. -/
structure SysState where
  files : List (String × List Nat)
  stdout : String
deriving DecidableEq, Repr

/-- The initial state: nothing written, nothing printed. -/
def initState : SysState := ⟨[], ""⟩

/-- One full call of `create_icon(size, filename)` including `img.save` and
the `print` of line 65: render, write the PNG bytes, print the confirmation.
A failing write propagates the error, leaving the state as it was (the print
on line 65 is only reached after a successful save). -/
def runCreateIcon (measure : Measure) (env : FontEnv) (wenv : WriteEnv)
    (size : Int) (filename : String) (st : SysState) : Except SysState SysState :=
  let icon := create_icon measure env size
  if wenv.writeOk filename then
    Except.ok
      { files := st.files ++ [(filename, encodePNG icon)],
        stdout := st.stdout ++ pyLine
          ("Created " ++ filename ++ " (" ++ toString size ++ "x" ++ toString size ++ ")") }
  else Except.error st

/-- The fixed size list of the driver (line 68). -/
def driverSizes : List Int := [16, 48, 128]

/-- The output path for a size: `f"icon{size}.png"`. -/
def iconFilename (size : Int) : String := "icon" ++ toString size ++ ".png"

/-- The driver loop of lines 69-70: render each size in order; a failure
halts the remaining iterations and propagates. -/
def runSizes (measure : Measure) (env : FontEnv) (wenv : WriteEnv) :
    List Int → SysState → Except SysState SysState
  | [], st => Except.ok st
  | s :: rest, st =>
    match runCreateIcon measure env wenv s (iconFilename s) st with
    | Except.ok st' => runSizes measure env wenv rest st'
    | Except.error st' => Except.error st'

/-- The `__main__` block, lines 67-71: run the loop over `[16, 48, 128]`,
then print the final summary (whose string starts with a newline). -/
def runMain (measure : Measure) (env : FontEnv) (wenv : WriteEnv) :
    Except SysState SysState :=
  match runSizes measure env wenv driverSizes initState with
  | Except.ok st =>
      Except.ok { st with stdout := st.stdout ++ pyLine "\nIcons generated successfully!" }
  | Except.error st => Except.error st

/-- Final observable result of one process run. -/
structure ProgResult where
  exitCode : Nat
  stdout : String
  files : List (String × List Nat)
deriving DecidableEq, Repr

/-- The whole program, lines 7-71: if the Pillow import fails, print the
installation hint and `exit(1)` before touching any file; otherwise run the
driver.  An uncaught exception terminates the process with status 1. -/
def program (pillowAvailable : Bool) (measure : Measure) (env : FontEnv)
    (wenv : WriteEnv) : ProgResult :=
  if pillowAvailable then
    match runMain measure env wenv with
    | Except.ok st => ⟨0, st.stdout, st.files⟩
    | Except.error st => ⟨1, st.stdout, st.files⟩
  else
    ⟨1, pyLine "Error: Pillow not installed. Install it with: pip install Pillow", []⟩

/-- Splits accumulated stdout into physical lines at newline characters. -/
def linesAux : List Char → List Char → List (List Char)
  | [], acc => [acc.reverse]
  | c :: rest, acc =>
    if c = '\n' then acc.reverse :: linesAux rest []
    else linesAux rest (c :: acc)

/-- The physical lines of a newline-terminated stdout text: everything the
terminal displays as a line, blank lines included. -/
def physLines (s : String) : List String :=
  ((linesAux s.toList []).dropLast).map fun cs => String.mk cs

/-- The state a run ended in, whether it succeeded or failed. -/
def resultState : Except SysState SysState → SysState
  | Except.ok st => st
  | Except.error st => st

/-- Whether a run completed without an uncaught error. -/
def runOk : Except SysState SysState → Bool
  | Except.ok _ => true
  | Except.error _ => false

/-- The files a call appended beyond the `n` entries already present. -/
def newWrites (n : Nat) (r : Except SysState SysState) : List (String × List Nat) :=
  (resultState r).files.drop n

/-- A concrete text-measurement capability used for witnesses: every string
measures to the box (0, 0, 10, 10). -/
def constMeasure : Measure := fun _ _ => ⟨0, 0, 10, 10⟩

/-- A font environment in which no scalable font is resolvable at any tier. -/
def noFontEnv : FontEnv := ⟨false, false⟩

/-- A write environment in which every write succeeds. -/
def allOkWrite : WriteEnv := ⟨fun _ => true⟩

/-- A write environment in which exactly the write of icon48.png fails. -/
def failWrite48 : WriteEnv := ⟨fun n => !(n == "icon48.png")⟩

/-- Helper: under a write environment where all three writes succeed, the
driver run ends in the fully explicit success state. -/
theorem runMain_allOk (m : Measure) (e : FontEnv) (wenv : WriteEnv)
    (h16 : wenv.writeOk "icon16.png" = true)
    (h48 : wenv.writeOk "icon48.png" = true)
    (h128 : wenv.writeOk "icon128.png" = true) :
    runMain m e wenv = Except.ok
      { files := [("icon16.png", encodePNG (create_icon m e 16)),
                  ("icon48.png", encodePNG (create_icon m e 48)),
                  ("icon128.png", encodePNG (create_icon m e 128))],
        stdout := "Created icon16.png (16x16)\nCreated icon48.png (48x48)\nCreated icon128.png (128x128)\n\nIcons generated successfully!\n" } := by
  have f16 : iconFilename 16 = "icon16.png" := rfl
  have f48 : iconFilename 48 = "icon48.png" := rfl
  have f128 : iconFilename 128 = "icon128.png" := rfl
  simp only [runMain, driverSizes, runSizes, runCreateIcon, initState,
    f16, f48, f128, h16, h48, h128, if_true]
  rfl

/-- C3 (amended): with every write succeeding, the driver produces exactly the
three files icon16.png, icon48.png, icon128.png and its stdout consists of the
three "Created" lines, then a blank line, then the summary line — five
physical lines from four print calls (the summary string starts with a
newline). -/
theorem claim_C3 (m : Measure) (e : FontEnv) (wenv : WriteEnv)
    (h16 : wenv.writeOk "icon16.png" = true)
    (h48 : wenv.writeOk "icon48.png" = true)
    (h128 : wenv.writeOk "icon128.png" = true) :
    runOk (runMain m e wenv) = true ∧
    (resultState (runMain m e wenv)).files.map Prod.fst =
      ["icon16.png", "icon48.png", "icon128.png"] ∧
    physLines (resultState (runMain m e wenv)).stdout =
      ["Created icon16.png (16x16)", "Created icon48.png (48x48)",
       "Created icon128.png (128x128)", "", "Icons generated successfully!"] := by
  rw [runMain_allOk m e wenv h16 h48 h128]
  exact ⟨rfl, rfl, rfl⟩

/-- Witness for C3 (amended) in the all-writes-succeed environment. -/
theorem claim_C3_witness :
    runOk (runMain constMeasure noFontEnv allOkWrite) = true ∧
    (resultState (runMain constMeasure noFontEnv allOkWrite)).files.map Prod.fst =
      ["icon16.png", "icon48.png", "icon128.png"] ∧
    physLines (resultState (runMain constMeasure noFontEnv allOkWrite)).stdout =
      ["Created icon16.png (16x16)", "Created icon48.png (48x48)",
       "Created icon128.png (128x128)", "", "Icons generated successfully!"] :=
  claim_C3 constMeasure noFontEnv allOkWrite rfl rfl rfl

/-- Counterexample to C3 as stated: the driver does not print exactly four
lines.  Its stdout holds five physical lines — the fourth is blank, because
the summary print is `print("\nIcons generated successfully!")` — so the
claimed four-line transcript (three "Created" lines followed directly by the
summary) is not what is printed. -/
theorem claim_C3_counterexample :
    physLines (resultState (runMain constMeasure noFontEnv allOkWrite)).stdout ≠
      ["Created icon16.png (16x16)", "Created icon48.png (48x48)",
       "Created icon128.png (128x128)", "Icons generated successfully!"] ∧
    (physLines (resultState (runMain constMeasure noFontEnv allOkWrite)).stdout).length = 5 := by
  decide

/-- C8: `create_icon` is deterministic and history-independent: a call with
identical (size, filename) from any two prior states appends the same single
(filename, bytes) entry, whose bytes are a function of the canvas alone. -/
theorem claim_C8 (m : Measure) (e : FontEnv) (wenv : WriteEnv) (size : Int)
    (filename : String) (h : wenv.writeOk filename = true) (st st' : SysState) :
    newWrites st.files.length (runCreateIcon m e wenv size filename st) =
      newWrites st'.files.length (runCreateIcon m e wenv size filename st') ∧
    newWrites st.files.length (runCreateIcon m e wenv size filename st) =
      [(filename, encodePNG (create_icon m e size))] := by
  unfold runCreateIcon newWrites
  rw [h]
  simp [resultState, List.drop_left]

/-- Witness for C8: two invocations at size 16 from different prior states
write identical bytes. -/
theorem claim_C8_witness :
    newWrites (SysState.files initState).length
        (runCreateIcon constMeasure noFontEnv allOkWrite 16 "icon16.png" initState) =
      newWrites (SysState.files ⟨[("other.png", [0])], "x"⟩).length
        (runCreateIcon constMeasure noFontEnv allOkWrite 16 "icon16.png"
          ⟨[("other.png", [0])], "x"⟩) ∧
    newWrites (SysState.files initState).length
        (runCreateIcon constMeasure noFontEnv allOkWrite 16 "icon16.png" initState) =
      [("icon16.png", encodePNG (create_icon constMeasure noFontEnv 16))] :=
  claim_C8 constMeasure noFontEnv allOkWrite 16 "icon16.png" rfl initState
    ⟨[("other.png", [0])], "x"⟩

/-- C9: a failing write inside the driver loop propagates: when icon16.png
succeeds and icon48.png fails, the run ends in an error whose state still
holds the untouched icon16.png file and its stdout line, and the icon128.png
iteration is never reached — whatever its own write would have done. -/
theorem claim_C9 (m : Measure) (e : FontEnv) (wenv : WriteEnv)
    (h16 : wenv.writeOk "icon16.png" = true)
    (h48 : wenv.writeOk "icon48.png" = false) :
    runMain m e wenv = Except.error
      { files := [("icon16.png", encodePNG (create_icon m e 16))],
        stdout := "Created icon16.png (16x16)\n" } := by
  have f16 : iconFilename 16 = "icon16.png" := rfl
  have f48 : iconFilename 48 = "icon48.png" := rfl
  simp only [runMain, driverSizes, runSizes, runCreateIcon, initState,
    f16, f48, h16, h48, if_true, if_false]
  rfl

/-- Witness for C9 in the environment where exactly icon48.png fails. -/
theorem claim_C9_witness :
    runMain constMeasure noFontEnv failWrite48 = Except.error
      { files := [("icon16.png", encodePNG (create_icon constMeasure noFontEnv 16))],
        stdout := "Created icon16.png (16x16)\n" } :=
  claim_C9 constMeasure noFontEnv failWrite48 rfl rfl

/-- C10: when the Pillow import fails, the program prints the installation
hint and exits with status exactly 1, with no file written and no rendering
attempted. -/
theorem claim_C10 (m : Measure) (e : FontEnv) (wenv : WriteEnv) :
    program false m e wenv =
      { exitCode := 1,
        stdout := "Error: Pillow not installed. Install it with: pip install Pillow\n",
        files := [] } :=
  rfl


/-- C1: for every positive size, `create_icon` takes exactly one of the two
visual branches: a text primitive is drawn iff size ≥ 48 and an arc primitive
is drawn iff size < 48, so the two conditions are complementary over all
positive sizes with no overlap and no gap; in particular size = 48 takes the
text branch. -/
theorem claim_C1 (m : Measure) (e : FontEnv) (size : Int) (_hpos : 0 < size) :
    (hasTextPrim (create_icon m e size) = true ↔ 48 ≤ size) ∧
    (hasArcPrim (create_icon m e size) = true ↔ size < 48) := by
  unfold create_icon hasTextPrim hasArcPrim
  split_ifs with h1 h2 h3 <;>
    simp_all [isTextPrim, isArcPrim]

/-- Witness for C1 at the boundary size 48: the text branch is taken and the
arc branch is not. -/
theorem claim_C1_witness :
    (hasTextPrim (create_icon constMeasure noFontEnv 48) = true ↔ (48 : Int) ≤ 48) ∧
    (hasArcPrim (create_icon constMeasure noFontEnv 48) = true ↔ (48 : Int) < 48) :=
  claim_C1 constMeasure noFontEnv 48 (by decide)

/-- C2: in the text branch the label drawn is "S" when 48 ≤ size < 64 and
"SEO" when size ≥ 64. -/
theorem claim_C2 (m : Measure) (e : FontEnv) (size : Int) (h : 48 ≤ size) :
    (size < 64 → drawnTexts (create_icon m e size) = ["S"]) ∧
    (64 ≤ size → drawnTexts (create_icon m e size) = ["SEO"]) := by
  unfold create_icon drawnTexts
  split_ifs with h1 h2 h3 <;> simp_all

/-- Witness for C2 at sizes 48 and 64. -/
theorem claim_C2_witness :
    (((48 : Int) < 64 → drawnTexts (create_icon constMeasure noFontEnv 48) = ["S"]) ∧
      ((64 : Int) ≤ 48 → drawnTexts (create_icon constMeasure noFontEnv 48) = ["SEO"])) ∧
    (((64 : Int) < 64 → drawnTexts (create_icon constMeasure noFontEnv 64) = ["S"]) ∧
      ((64 : Int) ≤ 64 → drawnTexts (create_icon constMeasure noFontEnv 64) = ["SEO"])) :=
  ⟨claim_C2 constMeasure noFontEnv 48 (by decide),
   claim_C2 constMeasure noFontEnv 64 (by decide)⟩

/-- C4: for every positive size the outer ellipse is the unique ellipse
primitive and its stroke width is max(2, size // 32); in particular 2 at
size 16 and 4 at size 128. -/
theorem claim_C4 (m : Measure) (e : FontEnv) (size : Int) (_hpos : 0 < size) :
    ellipseWidths (create_icon m e size) = [max 2 (Int.fdiv size 32)] ∧
    ellipseWidths (create_icon m e 16) = [2] ∧
    ellipseWidths (create_icon m e 128) = [4] := by
  refine ⟨?_, ?_, ?_⟩
  · unfold create_icon ellipseWidths
    split_ifs <;> simp
  · rfl
  · rfl

/-- Witness for C4 at size 16. -/
theorem claim_C4_witness :
    ellipseWidths (create_icon constMeasure noFontEnv 16) = [max 2 (Int.fdiv 16 32)] ∧
    ellipseWidths (create_icon constMeasure noFontEnv 16) = [2] ∧
    ellipseWidths (create_icon constMeasure noFontEnv 128) = [4] :=
  claim_C4 constMeasure noFontEnv 16 (by decide)

/-- C5: for every positive size below 48 the canvas holds exactly one arc,
inscribed in [center-L, center-L, center+L, center+L] with L = size // 3 and
center = size // 2, spanning 45° to 315°, white, width max(1, size // 16). -/
theorem claim_C5 (m : Measure) (e : FontEnv) (size : Int) (_hpos : 0 < size)
    (h : size < 48) :
    arcPrimsOf (create_icon m e size) =
      [Prim.arc (Int.fdiv size 2 - Int.fdiv size 3) (Int.fdiv size 2 - Int.fdiv size 3)
        (Int.fdiv size 2 + Int.fdiv size 3) (Int.fdiv size 2 + Int.fdiv size 3)
        45 315 white (max 1 (Int.fdiv size 16))] := by
  unfold create_icon arcPrimsOf
  split_ifs with h1 <;> simp_all [isArcPrim]

/-- Witness for C5 at size 16: arc box [3,3,13,13], width 1. -/
theorem claim_C5_witness :
    arcPrimsOf (create_icon constMeasure noFontEnv 16) =
      [Prim.arc (Int.fdiv 16 2 - Int.fdiv 16 3) (Int.fdiv 16 2 - Int.fdiv 16 3)
        (Int.fdiv 16 2 + Int.fdiv 16 3) (Int.fdiv 16 2 + Int.fdiv 16 3)
        45 315 white (max 1 (Int.fdiv 16 16))] :=
  claim_C5 constMeasure noFontEnv 16 (by decide) (by decide)

/-- C6: the font fallback chain never raises.  For every font environment the
text branch still renders exactly one text primitive with the correct label,
and when no scalable font is resolvable at either tier the chain yields the
generic bitmap font and that font is the one used for the label. -/
theorem claim_C6 (m : Measure) (e : FontEnv) (size : Int) (h : 48 ≤ size) :
    drawnTexts (create_icon m e size) = [if size ≥ 64 then "SEO" else "S"] ∧
    (e.systemOk = false → e.arialOk = false →
      acquireFont e (Int.fdiv size 3) = Font.defaultFont ∧
      drawnTextFonts (create_icon m e size) =
        [((if size ≥ 64 then "SEO" else "S"), Font.defaultFont)]) := by
  constructor
  · unfold create_icon drawnTexts
    split_ifs <;> simp_all
  · intro hs ha
    constructor
    · unfold acquireFont
      simp [hs, ha]
    · unfold create_icon drawnTextFonts acquireFont
      split_ifs <;> simp_all

/-- Witness for C6 at size 48 with every scalable tier failing. -/
theorem claim_C6_witness :
    drawnTexts (create_icon constMeasure noFontEnv 48) =
      [if (48 : Int) ≥ 64 then "SEO" else "S"] ∧
    (noFontEnv.systemOk = false → noFontEnv.arialOk = false →
      acquireFont noFontEnv (Int.fdiv 48 3) = Font.defaultFont ∧
      drawnTextFonts (create_icon constMeasure noFontEnv 48) =
        [((if (48 : Int) ≥ 64 then "SEO" else "S"), Font.defaultFont)]) :=
  claim_C6 constMeasure noFontEnv 48 (by decide)

/-- C7: for every positive size the canvas is square of side `size`,
allocated in RGB mode (no alpha channel), with solid background colour
RGB(0, 123, 255). -/
theorem claim_C7 (m : Measure) (e : FontEnv) (size : Int) (_hpos : 0 < size) :
    (create_icon m e size).mode = "RGB" ∧
    (create_icon m e size).width = size ∧
    (create_icon m e size).height = size ∧
    (create_icon m e size).background = ⟨0, 123, 255⟩ := by
  unfold create_icon
  exact ⟨rfl, rfl, rfl, rfl⟩

/-- Witness for C7 at size 16. -/
theorem claim_C7_witness :
    (create_icon constMeasure noFontEnv 16).mode = "RGB" ∧
    (create_icon constMeasure noFontEnv 16).width = 16 ∧
    (create_icon constMeasure noFontEnv 16).height = 16 ∧
    (create_icon constMeasure noFontEnv 16).background = ⟨0, 123, 255⟩ :=
  claim_C7 constMeasure noFontEnv 16 (by decide)

end IconGen



